import Mathlib

/-!
Verification of the Databricks workspace API client (src/main.py,
class DatabricksWorkspaceAPI).  The source file repeats the same class
definition twice, byte for byte; the later definition shadows the earlier
one, so a single embedding covers both.

The embedding has three layers, each translated from the source:

* a codec layer for the content transport used by import_notebook /
  export_notebook (UTF-8 text encoding composed with base64, as performed
  by the Python standard library calls on main.py lines 123 and 145);
* a client layer in which every remote primitive consults an oracle
  (structure Env) and appends the HTTP call it issued to a trace, and the
  composite operations copy / search / exists are translated statement by
  statement from main.py lines 199-309;
* a response layer modelling _handle_response (main.py lines 27-43) and
  the per-primitive consumption of an HTTP response.

Recursion in copy and search is indexed by explicit fuel; every theorem
about a recursive operation is stated at fuel n+1 with children evaluated
at fuel n, which also makes the one-level-per-call structure of the
recursion explicit.
-/

/-! ## Codec layer

Modelled from the Python standard library functions used on main.py
lines 123 and 145: base64.b64encode / base64.b64decode and str.encode /
bytes.decode (UTF-8).  Bytes are Nat values below 256.  The base64
decoder and the UTF-8 decoder are total functions; on inputs that the
Python functions would reject they return unspecified values (the claims
only concern their behaviour on valid payloads, in particular on encoder
outputs). -/

def base64Table : List Char :=
  "ABCDEFGHIJKLMNOPQRSTUVWXYZabcdefghijklmnopqrstuvwxyz0123456789+/".toList

/-- Character for a six-bit group. -/
def b64Char (n : Nat) : Char := base64Table.getD n 'A'

def b64IndexAux : List Char → Char → Nat
  | [], _ => 64
  | t :: ts, c => if c = t then 0 else b64IndexAux ts c + 1

/-- Position of a character in the base64 alphabet. -/
def b64Index (c : Char) : Nat := b64IndexAux base64Table c

/-- base64.b64encode over a byte list, including the padding rules for a
final group of one or two bytes. -/
def b64encodeBytes : List Nat → List Char
  | [] => []
  | [a] => [b64Char (a / 4), b64Char (a % 4 * 16), '=', '=']
  | [a, b] => [b64Char (a / 4), b64Char (a % 4 * 16 + b / 16), b64Char (b % 16 * 4), '=']
  | a :: b :: c :: rest =>
      b64Char (a / 4) :: b64Char (a % 4 * 16 + b / 16) ::
      b64Char (b % 16 * 4 + c / 64) :: b64Char (c % 64) :: b64encodeBytes rest

/-- base64.b64decode over a character list, consuming four characters per
group and honouring one or two padding characters in the final group. -/
def b64decodeChars : List Char → List Nat
  | w :: x :: y :: z :: rest =>
      if y = '=' then
        [b64Index w * 4 + b64Index x / 16]
      else if z = '=' then
        [b64Index w * 4 + b64Index x / 16, b64Index x % 16 * 16 + b64Index y / 4]
      else
        (b64Index w * 4 + b64Index x / 16) ::
        (b64Index x % 16 * 16 + b64Index y / 4) ::
        (b64Index y % 4 * 64 + b64Index z) :: b64decodeChars rest
  | _ => []

/-- UTF-8 encoding of a single code point. -/
def utf8EncodeChar (c : Nat) : List Nat :=
  if c < 0x80 then [c]
  else if c < 0x800 then [0xC0 + c / 64, 0x80 + c % 64]
  else if c < 0x10000 then [0xE0 + c / 4096, 0x80 + c / 64 % 64, 0x80 + c % 64]
  else [0xF0 + c / 262144, 0x80 + c / 4096 % 64, 0x80 + c / 64 % 64, 0x80 + c % 64]

/-- UTF-8 encoding of a character sequence (str.encode). -/
def utf8Encode : List Char → List Nat
  | [] => []
  | c :: cs => utf8EncodeChar c.toNat ++ utf8Encode cs

/-- UTF-8 decoding of a byte sequence as a byte-at-a-time state machine:
the second argument counts pending continuation bytes, the third
accumulates the code point read so far.  At state zero a byte starts a
new code point; a 2-, 3- or 4-byte leading byte moves to state 1, 2 or 3;
a continuation byte must lie in the 0x80-0xBF range, and the final one
emits the character. -/
def utf8SM : List Nat → Nat → Nat → Option (List Char)
  | [], 0, _ => some []
  | [], _ + 1, _ => none
  | b :: bs, 0, _ =>
    if b < 0x80 then
      (utf8SM bs 0 0).map (fun cs => Char.ofNat b :: cs)
    else if b < 0xC0 then none
    else if b < 0xE0 then utf8SM bs 1 (b - 0xC0)
    else if b < 0xF0 then utf8SM bs 2 (b - 0xE0)
    else if b < 0xF8 then utf8SM bs 3 (b - 0xF0)
    else none
  | b :: bs, 1, acc =>
    if 0x80 ≤ b ∧ b < 0xC0 then
      (utf8SM bs 0 0).map (fun cs => Char.ofNat (acc * 64 + (b - 0x80)) :: cs)
    else none
  | b :: bs, k + 2, acc =>
    if 0x80 ≤ b ∧ b < 0xC0 then utf8SM bs (k + 1) (acc * 64 + (b - 0x80))
    else none

/-- UTF-8 decoding of a byte sequence (bytes.decode), none on a malformed
sequence. -/
def utf8Decode (bs : List Nat) : Option (List Char) := utf8SM bs 0 0

/-- Encoding applied to notebook content by import_notebook, main.py
line 123: base64.b64encode(content.encode()).decode(). -/
def import_content_encode (content : String) : String :=
  ⟨b64encodeBytes (utf8Encode content.toList)⟩

/-- Decoding applied to the content field by export_notebook, main.py
line 145: base64.b64decode(...).decode(). -/
def export_content_decode (payload : String) : Option String :=
  (utf8Decode (b64decodeChars payload.toList)).map fun cs => ⟨cs⟩

/-! ## Client layer

The remote service is an oracle (structure Env): each primitive sends one
HTTP request, recorded in a trace of Call values, and receives whatever
the oracle answers for that request.  The oracle is a function of the
request only, matching the stateless, one-round-trip-per-call design of
the client.  Exceptions are modelled by Exn: constructor api is the
DatabricksAPIError class of main.py lines 6-11, constructor other stands
for any other Python exception (carrying its str rendering). -/

/-- Error class of main.py lines 6-11. -/
structure DatabricksAPIError where
  status_code : Nat
  message : String
deriving DecidableEq, Repr

/-- A Python exception: either a DatabricksAPIError or any other
exception, identified by its string rendering. -/
inductive Exn where
  | api (e : DatabricksAPIError)
  | other (msg : String)
deriving DecidableEq, Repr

/-- Rewrap rule of main.py lines 255-258 and 289-292: an exception that
already is a DatabricksAPIError passes unchanged, anything else becomes a
status-500 DatabricksAPIError with a context message. -/
def Exn.wrap (ctx : String) : Exn → Exn
  | .api e => .api e
  | .other msg => .api ⟨500, ctx ++ msg⟩

/-- Metadata of a workspace object as the client consumes it: the path
and object_type fields, and the optional language field. -/
structure WorkspaceItem where
  path : String
  object_type : String
  language : Option String
deriving DecidableEq, Repr

/-- One HTTP request issued by the client.  The content argument of an
import_notebook call is recorded as transmitted, base64-encoded. -/
inductive Call where
  | get_status (path : String)
  | list_contents (path : String)
  | export_notebook (path : String) (format : String)
  | import_notebook (path language content format : String) (overwrite : Bool)
  | create_directory (path : String)
deriving DecidableEq, Repr

/-- Oracle for the remote service: the answer each primitive receives.
list_contents answers with the objects array of the response body
(contents.get with default, main.py line 245/277); export_notebook
answers with the base64 content field, none standing for the 2xx
non-200 response on which the method returns None. -/
structure Env where
  get_status : String → Except Exn WorkspaceItem
  list_contents : String → Except Exn (List WorkspaceItem)
  export_notebook : String → String → Except Exn (Option String)
  import_notebook : String → String → String → String → Bool → Except Exn Bool
  create_directory : String → Except Exn Bool

/-- A client computation: from the oracle, an outcome together with the
trace of HTTP calls issued, in order. -/
def ClientM (α : Type) : Type := Env → Except Exn α × List Call

def ClientM.pure (a : α) : ClientM α := fun _ => (.ok a, [])

def ClientM.bind (m : ClientM α) (f : α → ClientM β) : ClientM β := fun env =>
  match m env with
  | (.ok a, calls) =>
      let r := f a env
      (r.1, calls ++ r.2)
  | (.error e, calls) => (.error e, calls)

def ClientM.throw (e : Exn) : ClientM α := fun _ => (.error e, [])

/-- Outcome of a computation under an oracle. -/
def ClientM.res (m : ClientM α) (env : Env) : Except Exn α := (m env).1

/-- Trace of a computation under an oracle. -/
def ClientM.trace (m : ClientM α) (env : Env) : List Call := (m env).2

/-- Python try/except DatabricksAPIError: the handler fires only on api
errors, any other exception propagates. -/
def ClientM.catchApi (m : ClientM α) (h : DatabricksAPIError → ClientM α) : ClientM α :=
  fun env =>
    match m env with
    | (.error (.api e), calls) =>
        let r := h e env
        (r.1, calls ++ r.2)
    | (.error (.other msg), calls) => (.error (.other msg), calls)
    | (.ok a, calls) => (.ok a, calls)

/-- Catch-all of main.py lines 255-258 and 289-292. -/
def ClientM.wrapInternal (ctx : String) (m : ClientM α) : ClientM α :=
  fun env =>
    match m env with
    | (.error e, calls) => (.error (e.wrap ctx), calls)
    | (.ok a, calls) => (.ok a, calls)

/-! ### Primitive operations

Each primitive logs its HTTP call and returns the oracle answer.  The
export_notebook method additionally base64-decodes the content field
(main.py line 145); a decode failure is a raw Python exception. -/

def get_status (path : String) : ClientM WorkspaceItem :=
  fun env => (env.get_status path, [.get_status path])

def list_contents (path : String) : ClientM (List WorkspaceItem) :=
  fun env => (env.list_contents path, [.list_contents path])

def create_directory (path : String) : ClientM Bool :=
  fun env => (env.create_directory path, [.create_directory path])

def export_notebook (path format : String) : ClientM (Option String) :=
  fun env =>
    (match env.export_notebook path format with
      | .error e => .error e
      | .ok none => .ok none
      | .ok (some payload) =>
        match export_content_decode payload with
        | some text => .ok (some text)
        | none => .error (.other "binascii.Error or UnicodeDecodeError"),
     [.export_notebook path format])

def import_notebook (path language content format : String) (overwrite : Bool) :
    ClientM Bool :=
  fun env =>
    (env.import_notebook path language (import_content_encode content) format overwrite,
     [.import_notebook path language (import_content_encode content) format overwrite])

/-! ### Composite operations, main.py lines 199-309 -/

/-- Source existence check of copy, main.py lines 210-214: a failing
get_status on the source is rewrapped with the same status code and a
message identifying the source. -/
def sourceProbe (source_path : String) : ClientM Unit :=
  ClientM.catchApi (ClientM.bind (get_status source_path) fun _ => ClientM.pure ())
    (fun e => ClientM.throw (.api ⟨e.status_code, "Source path does not exist: " ++ source_path⟩))

/-- Destination check of copy, main.py lines 216-223 (the overwrite=false
branch): a successful probe raises Conflict 409, which the surrounding
except re-raises since 409 is not 404; a 404 probe lets copy proceed; any
other DatabricksAPIError re-raises. -/
def destProbe (destination_path : String) : ClientM Unit :=
  ClientM.catchApi
    (ClientM.bind (get_status destination_path) fun _ =>
      ClientM.throw (.api ⟨409, "Destination already exists: " ++ destination_path⟩))
    (fun e => if e.status_code ≠ 404 then ClientM.throw (.api e) else ClientM.pure ())

/-- Last path component, main.py line 247: item_path.split sep takes the
final element. -/
def lastName (p : String) : String := (p.splitOn "/").getLastD ""

/-- Child destination, main.py line 248. -/
def childDest (destination_path : String) (item : WorkspaceItem) : String :=
  destination_path ++ "/" ++ lastName item.path

/-- Loop of main.py lines 244-252: copy every child, and-ing the boolean
results; a child returning False does not stop the loop. -/
def copyChildren (copyFn : WorkspaceItem → ClientM Bool) :
    List WorkspaceItem → Bool → ClientM Bool
  | [], success => ClientM.pure success
  | item :: rest, success =>
      ClientM.bind (copyFn item) fun r => copyChildren copyFn rest (success && r)

/-- Body of the try block of copy, main.py lines 226-254, with the
recursive self-call abstracted as copyFn. -/
def copyBody (copyFn : WorkspaceItem → ClientM Bool)
    (source_path destination_path : String) (overwrite : Bool) : ClientM Bool :=
  ClientM.bind (get_status source_path) fun source_info =>
    if source_info.object_type = "NOTEBOOK" then
      ClientM.bind (export_notebook source_path "SOURCE") fun content =>
        match content with
        | some c =>
            import_notebook destination_path (source_info.language.getD "PYTHON") c
              "SOURCE" overwrite
        | none => ClientM.throw (.other "AttributeError: NoneType has no attribute encode")
    else if source_info.object_type = "DIRECTORY" then
      ClientM.bind (create_directory destination_path) fun _ =>
        ClientM.bind (list_contents source_path) fun contents =>
          copyChildren copyFn contents true
    else
      ClientM.throw (.api ⟨400, "Unsupported object type: " ++ source_info.object_type⟩)

/-- copy, main.py lines 199-258, with fuel bounding the recursion depth:
at fuel n+1 every child copy runs at fuel n. -/
def copy : Nat → String → String → Bool → ClientM Bool
  | 0, _, _, _ => ClientM.throw (.other "recursion limit")
  | n + 1, source_path, destination_path, overwrite =>
      ClientM.bind (sourceProbe source_path) fun _ =>
        ClientM.bind (if overwrite then ClientM.pure () else destProbe destination_path) fun _ =>
          ClientM.wrapInternal "Error during copy operation: "
            (copyBody
              (fun item => copy n item.path (childDest destination_path item) overwrite)
              source_path destination_path overwrite)

/-- Recursive self-call of copy on a child, main.py line 249. -/
def copyChild (n : Nat) (destination_path : String) (overwrite : Bool)
    (item : WorkspaceItem) : ClientM Bool :=
  copy n item.path (childDest destination_path item) overwrite

/-- Default replacement of main.py line 272: a falsy file_types value
(None or the empty list) is replaced by the default list. -/
def resolveFileTypes : Option (List String) → List String
  | some (t :: ts) => t :: ts
  | _ => ["NOTEBOOK", "DIRECTORY", "LIBRARY", "REPO"]

/-- Loop of main.py lines 277-286: append each child whose type is in
file_types; when recursive and the child is a DIRECTORY, recurse into it
(regardless of file_types) and append the sub-results right after. -/
def searchChildren (searchFn : String → ClientM (List WorkspaceItem))
    (recursive : Bool) (file_types : List String) :
    List WorkspaceItem → List WorkspaceItem → ClientM (List WorkspaceItem)
  | [], results => ClientM.pure results
  | item :: rest, results =>
      if recursive = true ∧ item.object_type = "DIRECTORY" then
        ClientM.bind (searchFn item.path) fun sub =>
          searchChildren searchFn recursive file_types rest
            ((if item.object_type ∈ file_types then results ++ [item] else results) ++ sub)
      else
        searchChildren searchFn recursive file_types rest
          (if item.object_type ∈ file_types then results ++ [item] else results)

/-- Body of the try block of search, main.py lines 274-288, with the
recursive self-call abstracted as searchFn. -/
def searchBody (searchFn : String → ClientM (List WorkspaceItem))
    (path : String) (recursive : Bool) (file_types : List String) :
    ClientM (List WorkspaceItem) :=
  ClientM.bind (list_contents path) fun contents =>
    searchChildren searchFn recursive file_types contents []

/-- search, main.py lines 260-292, with fuel bounding the recursion
depth: at fuel n+1 every recursive call runs at fuel n, and receives the
already-resolved file_types list as the Python code does. -/
def search : Nat → String → Bool → Option (List String) → ClientM (List WorkspaceItem)
  | 0, _, _, _ => ClientM.throw (.other "recursion limit")
  | n + 1, path, recursive, file_types0 =>
      let file_types := resolveFileTypes file_types0
      ClientM.wrapInternal "Error during search operation: "
        (searchBody (fun p => search n p recursive (some file_types))
          path recursive file_types)

/-- Recursive self-call of search on a child directory, main.py
line 285. -/
def searchChild (n : Nat) (recursive : Bool) (file_types : List String)
    (p : String) : ClientM (List WorkspaceItem) :=
  search n p recursive (some file_types)

/-- exists, main.py lines 294-309 (named exists_ because exists is a
reserved word in Lean): true on a successful get_status, false on a 404
DatabricksAPIError, anything else re-raised. -/
def exists_ (path : String) : ClientM Bool :=
  ClientM.catchApi (ClientM.bind (get_status path) fun _ => ClientM.pure true)
    (fun e => if e.status_code = 404 then ClientM.pure false else ClientM.throw (.api e))

/-- Boolean outcome of a child copy: the returned boolean, or false when
the child raised (used only to state the directory-copy aggregation; the
aggregation theorem assumes no child raised). -/
def resOrFalse : Except Exn Bool → Bool
  | .ok r => r
  | .error _ => false

/-- List outcome of a child search, nil when the child raised. -/
def resOrNil : Except Exn (List WorkspaceItem) → List WorkspaceItem
  | .ok r => r
  | .error _ => []

/-- Entries contributed by one listed child in the search loop: the child
itself when its type is requested, followed by the results of the
recursive search when the child is a DIRECTORY. -/
def searchEntry (n : Nat) (env : Env) (file_types : List String)
    (item : WorkspaceItem) : List WorkspaceItem :=
  (if item.object_type ∈ file_types then [item] else []) ++
  (if item.object_type = "DIRECTORY" then
    resOrNil ((searchChild n true file_types item.path).res env)
  else [])


/-! ## Response layer

Modelled from _handle_response, main.py lines 27-43, and from the way
each primitive consumes its HTTP response.  requests' raise_for_status
raises exactly on status codes in the 4xx and 5xx ranges; HttpResponse
carries the pieces of the response the client reads: the status, the
parsed JSON body (none when response.json() raises), the raw text, and
the str rendering of the HTTPError exception. -/

/-- Fields of a parsed JSON response body that the client reads. -/
structure JsonBody where
  error_code : Option String
  message : Option String
  content : Option String
deriving DecidableEq, Repr

/-- An HTTP response as consumed by _handle_response. -/
structure HttpResponse where
  status_code : Nat
  body : Option JsonBody
  text : String
  err_str : String
deriving DecidableEq, Repr

/-- Error message assembly of main.py lines 33-41. -/
def error_message_of (r : HttpResponse) : String :=
  match r.body with
  | some b =>
    match b.error_code, b.message with
    | some c, some m => c ++ ": " ++ m
    | _, some m => m
    | _, _ => "Unknown error"
  | none => if r.text = "" then r.err_str else r.text

/-- _handle_response, main.py lines 27-43: raise_for_status fires on 4xx
and 5xx statuses and the handler turns the HTTPError into a
DatabricksAPIError carrying the response status code. -/
def handle_response (r : HttpResponse) : Except DatabricksAPIError HttpResponse :=
  if 400 ≤ r.status_code ∧ r.status_code < 600 then
    .error ⟨r.status_code, error_message_of r⟩
  else .ok r

/-- list_contents response consumption, main.py lines 54-58. -/
def list_contents_result (r : HttpResponse) : Except Exn JsonBody :=
  match handle_response r with
  | .error e => .error (.api e)
  | .ok s =>
    match s.body with
    | some b => .ok b
    | none => .error (.other "JSONDecodeError")

/-- get_status response consumption, main.py lines 69-73. -/
def get_status_result (r : HttpResponse) : Except Exn JsonBody :=
  match handle_response r with
  | .error e => .error (.api e)
  | .ok s =>
    match s.body with
    | some b => .ok b
    | none => .error (.other "JSONDecodeError")

/-- delete response consumption, main.py lines 85-89. -/
def delete_result (r : HttpResponse) : Except Exn Bool :=
  match handle_response r with
  | .error e => .error (.api e)
  | .ok s => .ok (s.status_code == 200)

/-- create_directory response consumption, main.py lines 100-104. -/
def create_directory_result (r : HttpResponse) : Except Exn Bool :=
  match handle_response r with
  | .error e => .error (.api e)
  | .ok s => .ok (s.status_code == 200)

/-- import_notebook response consumption, main.py lines 119-129. -/
def import_notebook_result (r : HttpResponse) : Except Exn Bool :=
  match handle_response r with
  | .error e => .error (.api e)
  | .ok s => .ok (s.status_code == 200)

/-- export_notebook response consumption, main.py lines 141-145: after
_handle_response passes, a 200 response has its content field
base64-decoded, and any other status yields None. -/
def export_notebook_result (r : HttpResponse) : Except Exn (Option String) :=
  match handle_response r with
  | .error e => .error (.api e)
  | .ok s =>
    if s.status_code == 200 then
      match s.body with
      | none => .error (.other "JSONDecodeError")
      | some b =>
        match b.content with
        | none => .error (.other "KeyError: content")
        | some payload =>
          match export_content_decode payload with
          | some text => .ok (some text)
          | none => .error (.other "binascii.Error or UnicodeDecodeError")
    else .ok none

/-- get_permissions response consumption, main.py lines 156-160. -/
def get_permissions_result (r : HttpResponse) : Except Exn JsonBody :=
  match handle_response r with
  | .error e => .error (.api e)
  | .ok s =>
    match s.body with
    | some b => .ok b
    | none => .error (.other "JSONDecodeError")

/-- update_permissions response consumption, main.py lines 172-176. -/
def update_permissions_result (r : HttpResponse) : Except Exn JsonBody :=
  match handle_response r with
  | .error e => .error (.api e)
  | .ok s =>
    match s.body with
    | some b => .ok b
    | none => .error (.other "JSONDecodeError")

/-- move response consumption, main.py lines 189-197. -/
def move_result (r : HttpResponse) : Except Exn Bool :=
  match handle_response r with
  | .error e => .error (.api e)
  | .ok s => .ok (s.status_code == 200)

/-! ## Request model for update_permissions -/

/-- The PATCH request issued by update_permissions: its method, URL, and
JSON body (which holds a single key, access_control_list).  Entries of
the access control list are opaque. -/
structure UpdatePermissionsRequest (α : Type) where
  method : String
  url : String
  access_control_list : List α
deriving DecidableEq, Repr

/-- Request construction of update_permissions, main.py lines 162-176:
the URL is the fixed permissions endpoint and the body holds only
access_control_list.  The path parameter of the method is bound here
exactly as in the source, which never uses it. -/
def update_permissions_request (base_url : String) (path : String)
    (access_control_list : List α) : UpdatePermissionsRequest α :=
  { method := "PATCH"
    url := base_url ++ "/permissions"
    access_control_list := access_control_list }

/-! ## Concrete oracles and responses used by witnesses and
counterexamples -/

/-- A small workspace: a directory /dir holding one notebook, a deeper
tree under /root0, a plain notebook /nb, an unsupported object /file,
a path /err500 on which get-status returns a 500, and a path /neterr on
which the transport fails with a raw exception. -/
def envW : Env where
  get_status := fun p =>
    if p = "/dir" then .ok ⟨"/dir", "DIRECTORY", none⟩
    else if p = "/dir/a" then .ok ⟨"/dir/a", "NOTEBOOK", some "PYTHON"⟩
    else if p = "/root0" then .ok ⟨"/root0", "DIRECTORY", none⟩
    else if p = "/nb" then .ok ⟨"/nb", "NOTEBOOK", some "PYTHON"⟩
    else if p = "/file" then .ok ⟨"/file", "FILE", none⟩
    else if p = "/err500" then .error (.api ⟨500, "internal"⟩)
    else if p = "/neterr" then .error (.other "ConnectionError")
    else .error (.api ⟨404, "RESOURCE_DOES_NOT_EXIST"⟩)
  list_contents := fun p =>
    if p = "/dir" then .ok [⟨"/dir/a", "NOTEBOOK", some "PYTHON"⟩]
    else if p = "/root0" then
      .ok [⟨"/root0/a", "NOTEBOOK", some "PYTHON"⟩, ⟨"/root0/sub", "DIRECTORY", none⟩]
    else if p = "/root0/sub" then .ok [⟨"/root0/sub/b", "NOTEBOOK", some "PYTHON"⟩]
    else if p = "/neterr" then .error (.other "ConnectionError")
    else .error (.api ⟨404, "RESOURCE_DOES_NOT_EXIST"⟩)
  export_notebook := fun p _ =>
    if p = "/dir/a" ∨ p = "/nb" then .ok (some "")
    else .error (.api ⟨404, "RESOURCE_DOES_NOT_EXIST"⟩)
  import_notebook := fun _ _ _ _ _ => .ok true
  create_directory := fun _ => .ok true

/-- A 404 response with a structured error body. -/
def resp404 : HttpResponse :=
  ⟨404, some ⟨some "RESOURCE_DOES_NOT_EXIST", some "missing", none⟩, "", "http error"⟩

/-- A 304 response: not a 2xx status, yet raise_for_status does not
fire on it. -/
def resp304 : HttpResponse := ⟨304, none, "", "http error"⟩

/-- A 201 response: a 2xx status other than 200. -/
def resp201 : HttpResponse := ⟨201, some ⟨none, none, none⟩, "", "http error"⟩

/-! ## Theorems -/


section CodecLemmas

theorem b64Index_b64Char : ∀ n, n < 64 → b64Index (b64Char n) = n := by decide

theorem b64Char_ne_pad : ∀ n, n < 64 → b64Char n ≠ '=' := by decide

theorem b64_roundtrip : ∀ bs : List Nat, (∀ b ∈ bs, b < 256) →
    b64decodeChars (b64encodeBytes bs) = bs := by
  intro bs
  induction bs using b64encodeBytes.induct with
  | case1 =>
    intro _
    rfl
  | case2 a =>
    intro h
    have ha : a < 256 := h a (by simp)
    have e1 : b64Index (b64Char (a / 4)) = a / 4 := b64Index_b64Char _ (by omega)
    have e2 : b64Index (b64Char (a % 4 * 16)) = a % 4 * 16 := b64Index_b64Char _ (by omega)
    simp [b64encodeBytes, b64decodeChars, e1, e2]
    omega
  | case3 a b =>
    intro h
    have ha : a < 256 := h a (by simp)
    have hb : b < 256 := h b (by simp)
    have e1 : b64Index (b64Char (a / 4)) = a / 4 := b64Index_b64Char _ (by omega)
    have e2 : b64Index (b64Char (a % 4 * 16 + b / 16)) = a % 4 * 16 + b / 16 :=
      b64Index_b64Char _ (by omega)
    have e3 : b64Index (b64Char (b % 16 * 4)) = b % 16 * 4 := b64Index_b64Char _ (by omega)
    have ne3 : b64Char (b % 16 * 4) ≠ '=' := b64Char_ne_pad _ (by omega)
    have h1 : a / 4 * 4 + (a % 4 * 16 + b / 16) / 16 = a := by omega
    simp [b64encodeBytes, b64decodeChars, e1, e2, e3, ne3, h1]
    omega
  | case4 a b c rest ih =>
    intro h
    have ha : a < 256 := h a (by simp)
    have hb : b < 256 := h b (by simp)
    have hc : c < 256 := h c (by simp)
    have e1 : b64Index (b64Char (a / 4)) = a / 4 := b64Index_b64Char _ (by omega)
    have e2 : b64Index (b64Char (a % 4 * 16 + b / 16)) = a % 4 * 16 + b / 16 :=
      b64Index_b64Char _ (by omega)
    have e3 : b64Index (b64Char (b % 16 * 4 + c / 64)) = b % 16 * 4 + c / 64 :=
      b64Index_b64Char _ (by omega)
    have e4 : b64Index (b64Char (c % 64)) = c % 64 := b64Index_b64Char _ (by omega)
    have ne3 : b64Char (b % 16 * 4 + c / 64) ≠ '=' := b64Char_ne_pad _ (by omega)
    have ne4 : b64Char (c % 64) ≠ '=' := b64Char_ne_pad _ (by omega)
    have htail : ∀ x ∈ rest, x < 256 := fun x hx => h x (by simp [hx])
    have h1 : a / 4 * 4 + (a % 4 * 16 + b / 16) / 16 = a := by omega
    have h2 : (a % 4 * 16 + b / 16) % 16 * 16 + (b % 16 * 4 + c / 64) / 4 = b := by omega
    have h3 : (b % 16 * 4 + c / 64) % 4 * 64 + c % 64 = c := by omega
    simp [b64encodeBytes, b64decodeChars, e1, e2, e3, e4, ne3, ne4, ih htail, h1, h2, h3]

theorem char_toNat_lt (c : Char) : c.toNat < 1114112 := by
  rcases c.valid with h | h
  · exact Nat.lt_trans h (by norm_num)
  · exact h.2

theorem utf8EncodeChar_lt_256 (x : Nat) (hx : x < 1114112) :
    ∀ b ∈ utf8EncodeChar x, b < 256 := by
  intro b hb
  unfold utf8EncodeChar at hb
  split at hb
  · simp at hb
    omega
  · split at hb
    · simp at hb
      rcases hb with hb | hb <;> omega
    · split at hb
      · simp at hb
        rcases hb with hb | hb | hb <;> omega
      · simp at hb
        rcases hb with hb | hb | hb | hb <;> omega

theorem utf8Encode_lt_256 : ∀ s : List Char, ∀ b ∈ utf8Encode s, b < 256 := by
  intro s
  induction s with
  | nil => intro b hb; simp [utf8Encode] at hb
  | cons c cs ih =>
    intro b hb
    rw [utf8Encode, List.mem_append] at hb
    rcases hb with hb | hb
    · exact utf8EncodeChar_lt_256 c.toNat (char_toNat_lt c) b hb
    · exact ih b hb

theorem utf8_roundtrip : ∀ s : List Char, utf8SM (utf8Encode s) 0 0 = some s := by
  intro s
  induction s with
  | nil => rfl
  | cons c cs ih =>
    have hv : c.toNat < 1114112 := char_toNat_lt c
    rw [utf8Encode]
    by_cases h1 : c.toNat < 0x80
    · rw [utf8EncodeChar, if_pos h1, List.singleton_append]
      rw [utf8SM, if_pos h1, ih]
      simp [Char.ofNat_toNat]
    · by_cases h2 : c.toNat < 0x800
      · rw [utf8EncodeChar, if_neg h1, if_pos h2]
        rw [List.cons_append, List.singleton_append]
        rw [utf8SM, if_neg (by omega), if_neg (by omega), if_pos (by omega)]
        rw [utf8SM, if_pos ⟨by omega, by omega⟩, ih]
        simp
        have harg : c.toNat / 64 * 64 + c.toNat % 64 = c.toNat := by omega
        rw [harg, Char.ofNat_toNat]
      · by_cases h3 : c.toNat < 0x10000
        · rw [utf8EncodeChar, if_neg h1, if_neg h2, if_pos h3]
          rw [List.cons_append, List.cons_append, List.singleton_append]
          rw [utf8SM, if_neg (by omega), if_neg (by omega), if_neg (by omega),
            if_pos (by omega)]
          rw [show (2 : Nat) = 0 + 2 from rfl, utf8SM, if_pos ⟨by omega, by omega⟩]
          rw [utf8SM, if_pos ⟨by omega, by omega⟩, ih]
          simp
          have harg : (c.toNat / 4096 * 64 + c.toNat / 64 % 64) * 64 + c.toNat % 64
              = c.toNat := by omega
          rw [harg, Char.ofNat_toNat]
        · rw [utf8EncodeChar, if_neg h1, if_neg h2, if_neg h3]
          rw [List.cons_append, List.cons_append, List.cons_append, List.singleton_append]
          rw [utf8SM, if_neg (by omega), if_neg (by omega), if_neg (by omega),
            if_neg (by omega), if_pos (by omega)]
          rw [show (3 : Nat) = 1 + 2 from rfl, utf8SM, if_pos ⟨by omega, by omega⟩]
          rw [show (1 + 1 : Nat) = 0 + 2 from rfl, utf8SM, if_pos ⟨by omega, by omega⟩]
          rw [utf8SM, if_pos ⟨by omega, by omega⟩, ih]
          simp
          have harg : ((c.toNat / 262144 * 64 + c.toNat / 4096 % 64) * 64 +
              c.toNat / 64 % 64) * 64 + c.toNat % 64 = c.toNat := by omega
          rw [harg, Char.ofNat_toNat]

end CodecLemmas

/-- C8: the encoding applied by import_notebook (UTF-8 then base64,
main.py line 123) composed with the decoding applied by export_notebook
(base64 then UTF-8, main.py line 145) is the identity on every text
content string, so an import followed by an export of the same path with
format SOURCE reproduces the text exactly. -/
theorem import_export_content_roundtrip (content : String) :
    export_content_decode (import_content_encode content) = some content := by
  unfold export_content_decode import_content_encode utf8Decode
  have hb : ∀ b ∈ utf8Encode content.toList, b < 256 := utf8Encode_lt_256 content.toList
  have h1 : (⟨b64encodeBytes (utf8Encode content.toList)⟩ : String).toList
      = b64encodeBytes (utf8Encode content.toList) := rfl
  rw [h1, b64_roundtrip _ hb, utf8_roundtrip]
  rfl

/-- C9: the PATCH request issued by update_permissions is independent of
the path argument: the URL is the fixed permissions endpoint and the body
holds only access_control_list (main.py lines 172-174), so two calls with
different paths but the same access control list issue identical
requests. -/
theorem update_permissions_path_independent {α : Type} (base_url p1 p2 : String)
    (access_control_list : List α) :
    update_permissions_request base_url p1 access_control_list =
      update_permissions_request base_url p2 access_control_list := rfl

/-- C10: search invoked with an explicitly empty file_types list behaves
identically (same outcome and same trace against every oracle) to search
invoked with file_types unspecified: the falsy empty list is replaced by
the default NOTEBOOK, DIRECTORY, LIBRARY, REPO list (main.py line 272)
rather than matching nothing. -/
theorem search_empty_file_types_default (fuel : Nat) (path : String) (recursive : Bool) :
    search fuel path recursive (some []) = search fuel path recursive none := by
  cases fuel <;> rfl

/-- C5: exists returns true when get_status succeeds, false exactly when
get_status fails with a 404 DatabricksAPIError, and re-raises any other
exception unchanged (main.py lines 294-309). -/
theorem exists_spec (env : Env) (path : String) :
    (exists_ path).res env =
      match env.get_status path with
      | .ok _ => .ok true
      | .error (.api e) => if e.status_code = 404 then .ok false else .error (.api e)
      | .error (.other msg) => .error (.other msg) := by
  unfold exists_ ClientM.res ClientM.catchApi ClientM.bind get_status ClientM.pure ClientM.throw
  cases h : env.get_status path with
  | ok v => simp
  | error e =>
    cases e with
    | api a =>
      by_cases h4 : a.status_code = 404 <;> simp [h4]
    | other m => simp

section ProbeLemmas

theorem sourceProbe_ok (env : Env) (src : String) (st : WorkspaceItem)
    (hs : env.get_status src = .ok st) :
    sourceProbe src env = (.ok (), [.get_status src]) := by
  unfold sourceProbe ClientM.catchApi ClientM.bind get_status ClientM.pure
  simp [hs]

theorem sourceProbe_api (env : Env) (src : String) (e : DatabricksAPIError)
    (hs : env.get_status src = .error (.api e)) :
    sourceProbe src env =
      (.error (.api ⟨e.status_code, "Source path does not exist: " ++ src⟩),
       [.get_status src]) := by
  unfold sourceProbe ClientM.catchApi ClientM.bind get_status ClientM.pure ClientM.throw
  simp [hs]

theorem destProbe_ok (env : Env) (dst : String) (st : WorkspaceItem)
    (hd : env.get_status dst = .ok st) :
    destProbe dst env =
      (.error (.api ⟨409, "Destination already exists: " ++ dst⟩), [.get_status dst]) := by
  unfold destProbe ClientM.catchApi ClientM.bind get_status ClientM.pure ClientM.throw
  simp [hd]

theorem destProbe_404 (env : Env) (dst : String) (e : DatabricksAPIError)
    (hd : env.get_status dst = .error (.api e)) (h404 : e.status_code = 404) :
    destProbe dst env = (.ok (), [.get_status dst]) := by
  unfold destProbe ClientM.catchApi ClientM.bind get_status ClientM.pure ClientM.throw
  simp [hd, h404]

theorem destProbe_api (env : Env) (dst : String) (e : DatabricksAPIError)
    (hd : env.get_status dst = .error (.api e)) (hne : e.status_code ≠ 404) :
    destProbe dst env = (.error (.api e), [.get_status dst]) := by
  unfold destProbe ClientM.catchApi ClientM.bind get_status ClientM.pure ClientM.throw
  simp [hd, hne]

end ProbeLemmas

/-- C2 (amended): when get_status on the source fails with a
DatabricksAPIError, copy fails at once with a DatabricksAPIError carrying
the same status code and the message Source path does not exist followed
by the source path, and its trace holds the single source status probe,
so no other remote call was made; the failure is NotFound precisely when
the probe failure was NotFound. -/
theorem copy_source_probe_fails (n : Nat) (env : Env) (src dst : String) (ow : Bool)
    (e : DatabricksAPIError) (h : env.get_status src = .error (.api e)) :
    copy (n + 1) src dst ow env =
      (.error (.api ⟨e.status_code, "Source path does not exist: " ++ src⟩),
       [.get_status src]) := by
  show ClientM.bind (sourceProbe src) _ env = _
  unfold ClientM.bind
  rw [sourceProbe_api env src e h]

/-- C2 counterexample: on a source whose status probe fails with a 500
DatabricksAPIError, copy fails with status code 500 and not with
NotFound, refuting the claim that every failing source probe makes copy
fail NotFound. -/
theorem copy_source_probe_500_not_notfound :
    copy 1 "/err500" "/x" false envW =
      (.error (.api ⟨500, "Source path does not exist: /err500"⟩), [.get_status "/err500"]) ∧
    (500 : Nat) ≠ 404 := ⟨rfl, by decide⟩

/-- C3 counterexample: the destination /nb exists (its status probe
succeeds), yet copy from the nonexistent source /missing with
overwrite=false fails with the rewrapped 404 source error, not with
Conflict 409 — the source probe runs first, so the claim does not hold
for every source. -/
theorem copy_conflict_needs_source :
    envW.get_status "/nb" = .ok ⟨"/nb", "NOTEBOOK", some "PYTHON"⟩ ∧
    copy 1 "/missing" "/nb" false envW =
      (.error (.api ⟨404, "Source path does not exist: /missing"⟩),
       [.get_status "/missing"]) := ⟨rfl, rfl⟩


theorem ClientM.bind_run_ok {α β : Type} {m : ClientM α} {env : Env} {a : α}
    {calls : List Call} (f : α → ClientM β) (h : m env = (.ok a, calls)) :
    ClientM.bind m f env = ((f a env).1, calls ++ (f a env).2) := by
  unfold ClientM.bind
  rw [h]

theorem ClientM.bind_run_error {α β : Type} {m : ClientM α} {env : Env} {e : Exn}
    {calls : List Call} (f : α → ClientM β) (h : m env = (.error e, calls)) :
    ClientM.bind m f env = (.error e, calls) := by
  unfold ClientM.bind
  rw [h]

/-- C3 (amended): provided the source status probe succeeds,
copy with overwrite=false fails Conflict 409 whenever the destination
status probe succeeds, with a trace of exactly the two probes (no further
remote call); a non-404 DatabricksAPIError from the destination probe
propagates unchanged after the same two calls; and a 404 destination
probe lets the copy proceed into the wrapped body. -/
theorem copy_dest_probe_spec (n : Nat) (env : Env) (src dst : String)
    (st : WorkspaceItem) (hs : env.get_status src = .ok st) :
    (∀ st2, env.get_status dst = .ok st2 →
      copy (n + 1) src dst false env =
        (.error (.api ⟨409, "Destination already exists: " ++ dst⟩),
         [.get_status src, .get_status dst])) ∧
    (∀ e, env.get_status dst = .error (.api e) → e.status_code ≠ 404 →
      copy (n + 1) src dst false env =
        (.error (.api e), [.get_status src, .get_status dst])) ∧
    (∀ e, env.get_status dst = .error (.api e) → e.status_code = 404 →
      copy (n + 1) src dst false env =
        ((ClientM.wrapInternal "Error during copy operation: "
            (copyBody (copyChild n dst false) src dst false)).res env,
         .get_status src :: .get_status dst ::
           (ClientM.wrapInternal "Error during copy operation: "
             (copyBody (copyChild n dst false) src dst false)).trace env)) := by
  have hif : (if false = true then ClientM.pure () else destProbe dst) = destProbe dst := rfl
  refine ⟨?_, ?_, ?_⟩
  · intro st2 hd
    show ClientM.bind (sourceProbe src) _ env = _
    rw [ClientM.bind_run_ok _ (sourceProbe_ok env src st hs), hif,
      ClientM.bind_run_error _ (destProbe_ok env dst st2 hd)]
    rfl
  · intro e hd hne
    show ClientM.bind (sourceProbe src) _ env = _
    rw [ClientM.bind_run_ok _ (sourceProbe_ok env src st hs), hif,
      ClientM.bind_run_error _ (destProbe_api env dst e hd hne)]
    rfl
  · intro e hd h404
    show ClientM.bind (sourceProbe src) _ env = _
    rw [ClientM.bind_run_ok _ (sourceProbe_ok env src st hs), hif,
      ClientM.bind_run_ok _ (destProbe_404 env dst e hd h404)]
    unfold ClientM.res ClientM.trace copyChild
    simp

/-- Loop invariant of main.py lines 244-252: when no child copy raises,
the loop runs every child in order and returns the accumulated
conjunction of the boolean results. -/
theorem copyChildren_all (f : WorkspaceItem → ClientM Bool) (env : Env) :
    ∀ (items : List WorkspaceItem) (acc : Bool),
      (∀ it ∈ items, ∃ r, (f it).res env = .ok r) →
      ∃ calls, copyChildren f items acc env =
        (.ok (acc && (items.all fun it => resOrFalse ((f it).res env))), calls) := by
  intro items
  induction items with
  | nil =>
    intro acc _
    exact ⟨[], by simp [copyChildren, ClientM.pure]⟩
  | cons it rest ih =>
    intro acc h
    obtain ⟨r, hr⟩ := h it (by simp)
    obtain ⟨calls, hc⟩ := ih (acc && r) (fun x hx => h x (by simp [hx]))
    have hfe : f it env = (.ok r, (f it env).2) := by
      have : (f it env).1 = .ok r := hr
      rw [← this]
    refine ⟨(f it env).2 ++ calls, ?_⟩
    show ClientM.bind (f it) _ env = _
    rw [ClientM.bind_run_ok _ hfe, hc]
    have hres : resOrFalse ((f it).res env) = r := by
      rw [hr]
      rfl
    simp [hres, Bool.and_assoc]

/-- Directory branch of the copy body, main.py lines 236-252: with the
source reported as a DIRECTORY, the body creates the destination
directory, lists the source, and runs the child loop. -/
theorem copyBody_directory (f : WorkspaceItem → ClientM Bool) (env : Env)
    (src dst : String) (ow : Bool) (st : WorkspaceItem) (items : List WorkspaceItem)
    (b : Bool) (hs : env.get_status src = .ok st) (hdir : st.object_type = "DIRECTORY")
    (hmk : env.create_directory dst = .ok b) (hls : env.list_contents src = .ok items) :
    copyBody f src dst ow env =
      ((copyChildren f items true env).1,
       .get_status src :: .create_directory dst :: .list_contents src ::
         (copyChildren f items true env).2) := by
  unfold copyBody
  rw [ClientM.bind_run_ok _ (show get_status src env = (.ok st, [.get_status src]) by
    unfold get_status; rw [hs])]
  rw [hdir]
  rw [if_neg (by decide), if_pos rfl]
  rw [ClientM.bind_run_ok _ (show create_directory dst env = (.ok b, [.create_directory dst]) by
    unfold create_directory; rw [hmk])]
  rw [ClientM.bind_run_ok _ (show list_contents src env = (.ok items, [.list_contents src]) by
    unfold list_contents; rw [hls])]
  simp

/-- C1: on a DIRECTORY source whose probes pass, copy at fuel n+1 runs
each immediate child copy at fuel n against destination/childName in
listing order and returns the conjunction of the boolean child results —
true when the directory has no children.  The hypothesis asks that every
child copy return a boolean (a child may return false without stopping
its siblings; a child that raises would instead abort the loop with that
exception, in which case copy returns no boolean at all). -/
theorem copy_directory_and (n : Nat) (env : Env) (src dst : String) (ow : Bool)
    (st : WorkspaceItem) (items : List WorkspaceItem)
    (hsrc : env.get_status src = .ok st)
    (hdir : st.object_type = "DIRECTORY")
    (how : ow = true ∨ ∃ e, env.get_status dst = .error (.api e) ∧ e.status_code = 404)
    (hmk : ∃ b, env.create_directory dst = .ok b)
    (hls : env.list_contents src = .ok items)
    (hch : ∀ it ∈ items, ∃ r, (copyChild n dst ow it).res env = .ok r) :
    (copy (n + 1) src dst ow).res env =
      .ok (items.all fun it => resOrFalse ((copyChild n dst ow it).res env)) := by
  obtain ⟨b, hb⟩ := hmk
  obtain ⟨calls, hloop⟩ :=
    copyChildren_all (copyChild n dst ow) env items true hch
  have hbody : copyBody (copyChild n dst ow) src dst ow env =
      (.ok (items.all fun it => resOrFalse ((copyChild n dst ow it).res env)),
       .get_status src :: .create_directory dst :: .list_contents src :: calls) := by
    rw [copyBody_directory (copyChild n dst ow) env src dst ow st items b hsrc hdir hb hls,
      hloop]
    simp
  have hwrap : ClientM.wrapInternal "Error during copy operation: "
      (copyBody (copyChild n dst ow) src dst ow) env =
      (.ok (items.all fun it => resOrFalse ((copyChild n dst ow it).res env)),
       .get_status src :: .create_directory dst :: .list_contents src :: calls) := by
    unfold ClientM.wrapInternal
    rw [hbody]
  cases ow with
  | true =>
    unfold ClientM.res
    show (ClientM.bind (sourceProbe src) _ env).1 = _
    rw [ClientM.bind_run_ok _ (sourceProbe_ok env src st hsrc)]
    have hif : (if true = true then ClientM.pure () else destProbe dst) = ClientM.pure () := rfl
    rw [hif, ClientM.bind_run_ok _ (show ClientM.pure () env = (.ok (), []) from rfl)]
    show ((ClientM.wrapInternal "Error during copy operation: "
      (copyBody (copyChild n dst true) src dst true) env).1, _).1 = _
    rw [hwrap]
    rfl
  | false =>
    have h404 : ∃ e, env.get_status dst = .error (.api e) ∧ e.status_code = 404 := by
      rcases how with how | how
      · exact absurd how (by decide)
      · exact how
    obtain ⟨e, hd, h404⟩ := h404
    unfold ClientM.res
    show (ClientM.bind (sourceProbe src) _ env).1 = _
    rw [ClientM.bind_run_ok _ (sourceProbe_ok env src st hsrc)]
    have hif : (if false = true then ClientM.pure () else destProbe dst) = destProbe dst := rfl
    rw [hif, ClientM.bind_run_ok _ (destProbe_404 env dst e hd h404)]
    show ((ClientM.wrapInternal "Error during copy operation: "
      (copyBody (copyChild n dst false) src dst false) env).1, _).1 = _
    rw [hwrap]
    rfl

/-- Resolution of a provided non-empty file_types list is the identity
(main.py line 272). -/
theorem resolveFileTypes_some {ft : List String} (h : ft ≠ []) :
    resolveFileTypes (some ft) = ft := by
  cases ft with
  | nil => exact absurd rfl h
  | cons t ts => rfl

/-- Loop invariant of main.py lines 277-286 with recursive=true: when no
recursive child search raises, the loop appends, for each listed child in
order, the child itself when its type is requested, followed immediately
by the results of the recursive search when the child is a directory. -/
theorem searchChildren_append (f : String → ClientM (List WorkspaceItem)) (env : Env)
    (ft : List String) :
    ∀ (items : List WorkspaceItem) (acc : List WorkspaceItem),
      (∀ it ∈ items, it.object_type = "DIRECTORY" → ∃ r, (f it.path).res env = .ok r) →
      ∃ calls, searchChildren f true ft items acc env =
        (.ok (acc ++ items.flatMap fun it =>
          (if it.object_type ∈ ft then [it] else []) ++
          (if it.object_type = "DIRECTORY" then resOrNil ((f it.path).res env) else [])),
         calls) := by
  intro items
  induction items with
  | nil =>
    intro acc _
    exact ⟨[], by simp [searchChildren, ClientM.pure]⟩
  | cons it rest ih =>
    intro acc h
    by_cases hdir : it.object_type = "DIRECTORY"
    · obtain ⟨r, hr⟩ := h it (by simp) hdir
      have hfe : f it.path env = (.ok r, (f it.path env).2) := by
        have h1 : (f it.path env).1 = .ok r := hr
        rw [← h1]
      obtain ⟨calls, hc⟩ := ih ((if it.object_type ∈ ft then acc ++ [it] else acc) ++ r)
        (fun x hx => h x (by simp [hx]))
      refine ⟨(f it.path env).2 ++ calls, ?_⟩
      rw [searchChildren, if_pos (show true = true ∧ it.object_type = "DIRECTORY"
        from ⟨rfl, hdir⟩)]
      rw [ClientM.bind_run_ok _ hfe, hc]
      have hres : resOrNil ((f it.path).res env) = r := by
        rw [hr]
        rfl
      by_cases hM : ("DIRECTORY" : String) ∈ ft <;>
        simp [hdir, hres, hM, List.append_assoc]
    · obtain ⟨calls, hc⟩ := ih (if it.object_type ∈ ft then acc ++ [it] else acc)
        (fun x hx => h x (by simp [hx]))
      refine ⟨calls, ?_⟩
      rw [searchChildren, if_neg (show ¬(true = true ∧ it.object_type = "DIRECTORY")
        from fun hco => hdir hco.2)]
      rw [hc]
      by_cases hmem : it.object_type ∈ ft <;>
        simp [hmem, hdir, List.append_assoc]

/-- C4 (amended): for every non-empty requested file_types list, a
recursive search at fuel n+1 lists the path and returns the pre-order
sequence: for each immediate child in listing order, the child itself
when its object_type is in file_types, followed immediately by the
results of the fuel-n recursive search into the child whenever the child
is a DIRECTORY — regardless of whether DIRECTORY is in file_types.  The
hypothesis asks that no recursive child search raise.  (For an empty
requested list the default list replaces it, see the C10 theorem, so the
per-claim filter statement fails there.) -/
theorem search_preorder (n : Nat) (env : Env) (path : String) (ft : List String)
    (items : List WorkspaceItem) (hft : ft ≠ [])
    (hls : env.list_contents path = .ok items)
    (hch : ∀ it ∈ items, it.object_type = "DIRECTORY" →
      ∃ r, (searchChild n true ft it.path).res env = .ok r) :
    (search (n + 1) path true (some ft)).res env =
      .ok (items.flatMap (searchEntry n env ft)) := by
  obtain ⟨calls, hloop⟩ := searchChildren_append (searchChild n true ft) env ft items [] hch
  unfold ClientM.res
  show (ClientM.wrapInternal "Error during search operation: "
      (searchBody (fun p => search n p true (some (resolveFileTypes (some ft)))) path true
        (resolveFileTypes (some ft))) env).1 = _
  rw [resolveFileTypes_some hft]
  unfold ClientM.wrapInternal searchBody
  rw [ClientM.bind_run_ok _ (show list_contents path env = (.ok items, [.list_contents path]) by
    unfold list_contents; rw [hls])]
  have hloop' : searchChildren (fun p => search n p true (some ft)) true ft items [] env =
      (.ok (items.flatMap fun it =>
        (if it.object_type ∈ ft then [it] else []) ++
        (if it.object_type = "DIRECTORY"
          then resOrNil ((searchChild n true ft it.path).res env) else [])), calls) := by
    simpa using hloop
  rw [hloop']
  rfl

/-- C4 counterexample: with an explicitly empty requested file_types
list, search still returns the notebook child (the empty list is replaced
by the default list), although the child's object_type NOTEBOOK is not a
member of the requested empty list — so the claim fails for the empty
requested list. -/
theorem search_empty_list_not_filtered :
    (search 1 "/dir" true (some [])).res envW =
      .ok [⟨"/dir/a", "NOTEBOOK", some "PYTHON"⟩] ∧
    ("NOTEBOOK" : String) ∉ ([] : List String) := ⟨rfl, by simp⟩

/-- C6: an exception raised inside the wrapped recursive body of copy or
of search propagates unchanged when it already is a DatabricksAPIError,
and otherwise is rewrapped as a status-500 DatabricksAPIError whose
message names the operation (Exn.wrap); copy is taken with
overwrite=true so that only the source probe precedes the body. -/
theorem internal_wrap_spec (n : Nat) (env : Env) (src dst p : String)
    (st : WorkspaceItem) (fts : Option (List String)) (e1 e2 : Exn)
    (hs : env.get_status src = .ok st) :
    ((copyBody (copyChild n dst true) src dst true).res env = .error e1 →
      (copy (n + 1) src dst true).res env = .error (e1.wrap "Error during copy operation: ")) ∧
    ((searchBody (searchChild n true (resolveFileTypes fts)) p true
        (resolveFileTypes fts)).res env = .error e2 →
      (search (n + 1) p true fts).res env =
        .error (e2.wrap "Error during search operation: ")) := by
  constructor
  · intro hbody
    have hbody' : copyBody (copyChild n dst true) src dst true env =
        (.error e1, (copyBody (copyChild n dst true) src dst true env).2) := by
      have h1 : (copyBody (copyChild n dst true) src dst true env).1 = .error e1 := hbody
      rw [← h1]
    unfold ClientM.res
    show (ClientM.bind (sourceProbe src) _ env).1 = _
    rw [ClientM.bind_run_ok _ (sourceProbe_ok env src st hs)]
    have hif : (if true = true then ClientM.pure () else destProbe dst) = ClientM.pure () := rfl
    rw [hif, ClientM.bind_run_ok _ (show ClientM.pure () env = (.ok (), []) from rfl)]
    show ((ClientM.wrapInternal "Error during copy operation: "
      (copyBody (copyChild n dst true) src dst true) env).1, _).1 = _
    unfold ClientM.wrapInternal
    rw [hbody']
  · intro hbody
    have hbody' : searchBody (searchChild n true (resolveFileTypes fts)) p true
        (resolveFileTypes fts) env =
        (.error e2, (searchBody (searchChild n true (resolveFileTypes fts)) p true
          (resolveFileTypes fts) env).2) := by
      have h1 : (searchBody (searchChild n true (resolveFileTypes fts)) p true
          (resolveFileTypes fts) env).1 = .error e2 := hbody
      rw [← h1]
    unfold ClientM.res
    show (ClientM.wrapInternal "Error during search operation: "
      (searchBody (searchChild n true (resolveFileTypes fts)) p true
        (resolveFileTypes fts)) env).1 = _
    unfold ClientM.wrapInternal
    rw [hbody']

/-- C7 (amended): every response whose status code lies in the 4xx or
5xx ranges — the statuses on which raise_for_status fires — makes every
primitive operation fail with a DatabricksAPIError carrying exactly the
response status code, never a plain result; and export_notebook returns
the explicit absence value none exactly when the response passed
_handle_response (status outside 400-599) but its status is not 200.
Statuses outside both 2xx and 400-599, such as 304, pass through
_handle_response without an error, which is what the counterexample
records. -/
theorem primitives_raise_on_4xx5xx (r : HttpResponse) :
    (400 ≤ r.status_code → r.status_code < 600 →
      (handle_response r = .error ⟨r.status_code, error_message_of r⟩ ∧
       list_contents_result r = .error (.api ⟨r.status_code, error_message_of r⟩) ∧
       get_status_result r = .error (.api ⟨r.status_code, error_message_of r⟩) ∧
       delete_result r = .error (.api ⟨r.status_code, error_message_of r⟩) ∧
       create_directory_result r = .error (.api ⟨r.status_code, error_message_of r⟩) ∧
       import_notebook_result r = .error (.api ⟨r.status_code, error_message_of r⟩) ∧
       export_notebook_result r = .error (.api ⟨r.status_code, error_message_of r⟩) ∧
       get_permissions_result r = .error (.api ⟨r.status_code, error_message_of r⟩) ∧
       update_permissions_result r = .error (.api ⟨r.status_code, error_message_of r⟩) ∧
       move_result r = .error (.api ⟨r.status_code, error_message_of r⟩))) ∧
    (export_notebook_result r = .ok none ↔
      ¬(400 ≤ r.status_code ∧ r.status_code < 600) ∧ r.status_code ≠ 200) := by
  constructor
  · intro h4 h6
    have hh : handle_response r = .error ⟨r.status_code, error_message_of r⟩ := by
      unfold handle_response
      rw [if_pos ⟨h4, h6⟩]
    refine ⟨hh, ?_, ?_, ?_, ?_, ?_, ?_, ?_, ?_, ?_⟩ <;>
      simp [list_contents_result, get_status_result, delete_result, create_directory_result,
        import_notebook_result, export_notebook_result, get_permissions_result,
        update_permissions_result, move_result, hh]
  · unfold export_notebook_result handle_response
    by_cases hin : 400 ≤ r.status_code ∧ r.status_code < 600
    · rw [if_pos hin]
      simp [hin]
    · rw [if_neg hin]
      by_cases h200 : r.status_code = 200
      · simp only [h200]
        cases hb : r.body with
        | none => simp [hin, h200]
        | some b =>
          cases hc : b.content with
          | none => simp [hb, hc, hin, h200]
          | some payload =>
            cases hd : export_content_decode payload with
            | none => simp [hb, hc, hd, hin, h200]
            | some text => simp [hb, hc, hd, hin, h200]
      · simp [h200, hin]

/-- C7 counterexample: a 304 response has a non-2xx status, yet
raise_for_status does not fire on it, so the delete primitive raises no
error at all and returns the plain boolean false — refuting the claim
that every non-2xx response raises an error carrying the status. -/
theorem delete_304_returns_false :
    delete_result resp304 = .ok false ∧
    ¬(200 ≤ resp304.status_code ∧ resp304.status_code < 300) := ⟨rfl, by decide⟩

/-- C1 witness: copying the directory /dir (one notebook child) into
/dst with overwrite succeeds and returns true, through
copy_directory_and at fuel 1. -/
theorem copy_directory_and_witness :
    (copy 2 "/dir" "/dst" true).res envW = .ok true := by
  have h := copy_directory_and 1 envW "/dir" "/dst" true ⟨"/dir", "DIRECTORY", none⟩
    [⟨"/dir/a", "NOTEBOOK", some "PYTHON"⟩] rfl rfl (Or.inl rfl) ⟨true, rfl⟩ rfl
    (by
      intro it hit
      rw [List.mem_singleton] at hit
      subst hit
      exact ⟨true, rfl⟩)
  exact h

/-- C2 witness: a 404 source probe makes copy fail with the wrapped 404
message after the single probe call, through copy_source_probe_fails. -/
theorem copy_source_probe_fails_witness :
    copy 1 "/ghost" "/y" true envW =
      (.error (.api ⟨404, "Source path does not exist: /ghost"⟩), [.get_status "/ghost"]) :=
  copy_source_probe_fails 0 envW "/ghost" "/y" true ⟨404, "RESOURCE_DOES_NOT_EXIST"⟩ rfl

/-- C3 witness: with source /nb present and destination /dir present,
copy with overwrite=false fails Conflict 409 after exactly the two
probes, through copy_dest_probe_spec. -/
theorem copy_dest_probe_spec_witness :
    copy 1 "/nb" "/dir" false envW =
      (.error (.api ⟨409, "Destination already exists: /dir"⟩),
       [.get_status "/nb", .get_status "/dir"]) :=
  (copy_dest_probe_spec 0 envW "/nb" "/dir" ⟨"/nb", "NOTEBOOK", some "PYTHON"⟩ rfl).1
    ⟨"/dir", "DIRECTORY", none⟩ rfl

/-- C4 witness: searching /root0 (a notebook and a subdirectory holding
another notebook) for NOTEBOOK returns the two notebooks in pre-order,
through search_preorder at fuel 1. -/
theorem search_preorder_witness :
    (search 2 "/root0" true (some ["NOTEBOOK"])).res envW =
      .ok [⟨"/root0/a", "NOTEBOOK", some "PYTHON"⟩,
           ⟨"/root0/sub/b", "NOTEBOOK", some "PYTHON"⟩] := by
  have h := search_preorder 1 envW "/root0" ["NOTEBOOK"]
    [⟨"/root0/a", "NOTEBOOK", some "PYTHON"⟩, ⟨"/root0/sub", "DIRECTORY", none⟩]
    (by simp) rfl
    (by
      intro it hit hdir
      rw [List.mem_cons, List.mem_singleton] at hit
      rcases hit with hit | hit <;> subst hit
      · exact absurd hdir (by decide)
      · exact ⟨[⟨"/root0/sub/b", "NOTEBOOK", some "PYTHON"⟩], rfl⟩)
  exact h

/-- C6 witness: an unsupported FILE source makes the copy body raise a
DatabricksAPIError 400 that copy propagates unchanged, and a raw
transport exception in the search body is rewrapped as a 500 error with
the search context message, through internal_wrap_spec. -/
theorem internal_wrap_spec_witness :
    (copy 1 "/file" "/dst" true).res envW =
      .error (.api ⟨400, "Unsupported object type: FILE"⟩) ∧
    (search 1 "/neterr" true none).res envW =
      .error (.api ⟨500, "Error during search operation: ConnectionError"⟩) := by
  have h := internal_wrap_spec 0 envW "/file" "/dst" "/neterr" ⟨"/file", "FILE", none⟩ none
    (.api ⟨400, "Unsupported object type: FILE"⟩) (.other "ConnectionError") rfl
  exact ⟨h.1 rfl, h.2 rfl⟩

/-- C7 witness: a structured 404 response makes delete raise a
DatabricksAPIError carrying 404, and a 201 response makes
export_notebook return none, through primitives_raise_on_4xx5xx. -/
theorem primitives_raise_on_4xx5xx_witness :
    delete_result resp404 = .error (.api ⟨404, "RESOURCE_DOES_NOT_EXIST: missing"⟩) ∧
    export_notebook_result resp201 = .ok none := by
  constructor
  · exact ((primitives_raise_on_4xx5xx resp404).1 (by decide) (by decide)).2.2.2.1
  · exact (primitives_raise_on_4xx5xx resp201).2.mpr ⟨by decide, by decide⟩
